import Mathlib

/-
Verification of the anki-stats timing and classification core.

The Python sources are shallowly embedded: machine integers become Int,
floats that only ever hold exact decimal values become Rat, float NaN is
modelled by an explicit constructor, and functions that can raise become
Except-valued functions.
-/

namespace AnkiStats

/-- Number of seconds in a day (consts.py, SECS_IN_DAY). -/
def SECS_IN_DAY : Int := 24 * 60 * 60

/-- Review kind constant (consts.py): learning. -/
def REVLOG_LRN : Int := 0

/-- Review kind constant (consts.py): review. -/
def REVLOG_REV : Int := 1

/-- Review kind constant (consts.py): relearning. -/
def REVLOG_RELRN : Int := 2

/-- Review kind constant (consts.py): filtered/cram. -/
def REVLOG_FILT : Int := 3

/-- Review kind constant (consts.py): manual. -/
def REVLOG_MANUAL : Int := 4

/-- Review kind constant (consts.py): rescheduled. -/
def REVLOG_RESCHED : Int := 5

/-- Embedding of other_functions.get_days_round_to_zero for integer inputs:
convert seconds to days, rounding towards zero.  Python floor division
`//` is Int.fdiv. -/
def get_days_round_to_zero (x : Int) : Int :=
  if x < 0 then -((-x).fdiv SECS_IN_DAY) else x.fdiv SECS_IN_DAY

/-- Embedding of timing.TimestampSecs.datetime: a Python tz-aware datetime
is determined by its instant (epoch seconds) and the UTC offset used to
display it.  The offset is in minutes west of UTC, and the code builds a
timezone of -offset/60 hours, so local civil time is instant - 60*offset. -/
structure PyDateTime where
  instant : Int
  offsetMin : Int
  deriving DecidableEq

/-- Construct the tz-aware datetime for a timestamp and an offset in
minutes west of UTC (timing.TimestampSecs.datetime). -/
def TimestampSecs.datetime (val : Int) (offset : Int) : PyDateTime :=
  ⟨val, offset⟩

/-- Local civil time, in seconds, of a tz-aware datetime. -/
def PyDateTime.localSecs (d : PyDateTime) : Int :=
  d.instant - 60 * d.offsetMin

/-- Local civil date, as days since the epoch, of a tz-aware datetime.
Python computes the civil date by flooring local seconds over a day. -/
def PyDateTime.civilDate (d : PyDateTime) : Int :=
  d.localSecs.fdiv SECS_IN_DAY

/-- Embedding of timing.rollover_datetime: same local calendar date, with
the time of day replaced by rollover_hour:00:00.  datetime.replace acts on
the local representation, so the new instant is the start of the local
date plus rollover_hour hours, converted back by the same offset. -/
def rollover_datetime (d : PyDateTime) (rollover_hour : Int) : PyDateTime :=
  ⟨d.civilDate * SECS_IN_DAY + rollover_hour * 3600 + 60 * d.offsetMin,
   d.offsetMin⟩

/-- Result record of the day-boundary computation (timing.SchedTimingToday),
with timestamps unwrapped to their integer values. -/
structure SchedTimingToday where
  now : Int
  days_elapsed : Int
  next_day_at : Int
  deriving DecidableEq

/-- Embedding of timing.days_elapsed_: Python timedelta subtraction of two
aware datetimes yields the true elapsed time between the instants, and
timedelta.days floors it over 86400 seconds. -/
def days_elapsed_ (start_date end_date : PyDateTime)
    (rollover_passed : Bool) : Int :=
  let day_diff := (end_date.instant - start_date.instant).fdiv SECS_IN_DAY
  if rollover_passed then day_diff else day_diff - 1

/-- Embedding of timing.sched_timing_today_v1. -/
def sched_timing_today_v1 (crt now : Int) : SchedTimingToday :=
  let days_elapsed := get_days_round_to_zero (now - crt)
  { now := now
    days_elapsed := days_elapsed
    next_day_at := crt + (days_elapsed + 1) * SECS_IN_DAY }

/-- Embedding of timing.sched_timing_today_v2_legacy. -/
def sched_timing_today_v2_legacy (crt rollover now current_utc_offset : Int) :
    SchedTimingToday :=
  let crt_at_rollover :=
    (rollover_datetime (TimestampSecs.datetime crt current_utc_offset)
      rollover).instant
  let days_elapsed := get_days_round_to_zero (now - crt_at_rollover)
  let next_day_at :=
    (rollover_datetime (TimestampSecs.datetime now current_utc_offset)
      rollover).instant
  let next_day_at :=
    if next_day_at < now then next_day_at + SECS_IN_DAY else next_day_at
  { now := now, days_elapsed := days_elapsed, next_day_at := next_day_at }

/-- Embedding of timing.sched_timing_today_v2_new. -/
def sched_timing_today_v2_new (creation_secs current_secs : Int)
    (creation_utc_offset current_utc_offset rollover_hour : Int) :
    SchedTimingToday :=
  let created_datetime := TimestampSecs.datetime creation_secs
    creation_utc_offset
  let now_datetime := TimestampSecs.datetime current_secs current_utc_offset
  let rollover_today_datetime := rollover_datetime now_datetime rollover_hour
  let rollover_passed := rollover_today_datetime.instant ≤ now_datetime.instant
  let next_day_at :=
    if rollover_passed then rollover_today_datetime.instant + SECS_IN_DAY
    else rollover_today_datetime.instant
  let days_elapsed := days_elapsed_ created_datetime now_datetime
    rollover_passed
  { now := current_secs, days_elapsed := days_elapsed,
    next_day_at := next_day_at }

/-- Validity of an hour value for datetime.replace: Python raises
ValueError for an hour outside 0..23. -/
def hour_in_range (h : Int) : Bool :=
  decide (0 ≤ h) && decide (h ≤ 23)

/-- Validity of a UTC offset in minutes for datetime.timezone: Python
raises ValueError unless the offset is strictly between -24 and +24
hours. -/
def offset_in_range (off : Int) : Bool :=
  decide (-1440 < off) && decide (off < 1440)

/-- Embedding of timing.sched_timing_today: dispatch over the three
variants.  The v1 path is pure arithmetic and cannot raise; the v2 paths
construct tz-aware datetimes (datetime.timezone raises ValueError for an
offset of 24 hours or more) and call datetime.replace (ValueError for a
rollover hour outside 0..23), so the dispatch is Except-valued, with the
checks in the order the Python code reaches them. -/
def sched_timing_today (creation_secs current_secs : Int)
    (creation_utc_offset : Option Int) (current_utc_offset : Int)
    (rollover_hour : Option Int) : Except String SchedTimingToday :=
  match rollover_hour with
  | none => .ok (sched_timing_today_v1 creation_secs current_secs)
  | some rh =>
    match creation_utc_offset with
    | none =>
      if offset_in_range current_utc_offset then
        if hour_in_range rh then
          .ok (sched_timing_today_v2_legacy creation_secs rh current_secs
            current_utc_offset)
        else .error "hour must be in 0..23"
      else .error "utcoffset must be strictly between -24 and 24 hours"
    | some co =>
      if offset_in_range co then
        if offset_in_range current_utc_offset then
          if hour_in_range rh then
            .ok (sched_timing_today_v2_new creation_secs current_secs co
              current_utc_offset rh)
          else .error "hour must be in 0..23"
        else .error "utcoffset must be strictly between -24 and 24 hours"
      else .error "utcoffset must be strictly between -24 and 24 hours"

/-- The timing fields of timing.TimingConfig (the constructor's database
reads are I/O plumbing outside the core). -/
structure TimingConfig where
  rollover_hour : Option Int
  creation_offset : Option Int
  local_offset : Int
  local_offset_source : Int
  sched_ver : Option Int
  creation_stamp : Int

/-- The rollover hour timing_for_timestamp passes on under scheduling
version 2: the stored hour, or the default 4 when it is absent. -/
def effective_rollover_hour : Option Int → Int
  | none => 4
  | some r => r

/-- Embedding of timing.timing_for_timestamp: raising ValueError becomes
returning Except.error, both for the version check here and for the
datetime library errors propagating out of sched_timing_today. -/
def timing_for_timestamp (now : Int) (timing_config : TimingConfig) :
    Except String SchedTimingToday :=
  if timing_config.sched_ver = some 1 then
    sched_timing_today timing_config.creation_stamp now
      timing_config.creation_offset timing_config.local_offset none
  else if timing_config.sched_ver = some 2 then
    sched_timing_today timing_config.creation_stamp now
      timing_config.creation_offset timing_config.local_offset
      (some (effective_rollover_hour timing_config.rollover_hour))
  else
    .error "only schedVer 1 or 2 supported"

/-- Spec-side days_elapsed for the v2-current algorithm, following the
spec's words: the whole-day difference between creation's civil date and
now's civil date, minus one when today's rollover instant has not yet
passed. -/
def v2_new_days_elapsed_spec (creation_secs current_secs : Int)
    (creation_utc_offset current_utc_offset rollover_hour : Int) : Int :=
  let created_datetime := TimestampSecs.datetime creation_secs
    creation_utc_offset
  let now_datetime := TimestampSecs.datetime current_secs current_utc_offset
  let rollover_passed :=
    (rollover_datetime now_datetime rollover_hour).instant ≤
      now_datetime.instant
  if rollover_passed then now_datetime.civilDate - created_datetime.civilDate
  else now_datetime.civilDate - created_datetime.civilDate - 1

/-- The seconds-to-days rounding rule exactly as the spec words it:
floor(s/86400) for non-negative s, and -floor(|s|/86400) for negative s.
Written with Int ediv, which is floor division for a positive divisor. -/
def days_round_to_zero_spec (s : Int) : Int :=
  if s < 0 then -((-s) / 86400) else s / 86400

/-- A Python float-like value: either NaN or an exact numeric value. -/
inductive PyNum where
  | nan : PyNum
  | val (q : ℚ) : PyNum
  deriving DecidableEq

/-- Embedding of numpy.round: round half to even (banker's rounding). -/
def np_round (x : ℚ) : ℤ :=
  if x - ⌊x⌋ < 1 / 2 then ⌊x⌋
  else if 1 / 2 < x - ⌊x⌋ then ⌊x⌋ + 1
  else if Even ⌊x⌋ then ⌊x⌋ else ⌊x⌋ + 1

/-- Embedding of other_functions.round_away: NaN passes through, a
negative value raises ValueError, a value whose distance to its banker's
rounding exceeds 0.49999 is rounded up from its floor, and anything else
returns its banker's rounding. -/
def round_away (x : PyNum) : Except String PyNum :=
  match x with
  | .nan => .ok .nan
  | .val q =>
    if q < 0 then .error "non-negative number expected"
    else if |q - (np_round q : ℚ)| > 49999 / 100000 then
      .ok (.val ((⌊q⌋ : ℚ) + 1))
    else .ok (.val ((np_round q : ℤ) : ℚ))

/-- Rounding to the nearest integer with ties away from zero, as the spec
words it, on a non-negative value (away from zero = upward there). -/
def round_half_away_spec (q : ℚ) : ℤ :=
  if 1 / 2 ≤ q - ⌊q⌋ then ⌊q⌋ + 1 else ⌊q⌋

/-- Helper: on a non-negative rational, round_away returns the floor when
the fractional part is at most 0.49999 and the floor plus one
otherwise. -/
theorem round_away_val_eq (q : ℚ) (hq : 0 ≤ q) :
    round_away (PyNum.val q) =
      .ok (.val (if q - ⌊q⌋ ≤ 49999 / 100000 then (⌊q⌋ : ℚ)
                 else (⌊q⌋ : ℚ) + 1)) := by
  have h0 : (⌊q⌋ : ℚ) ≤ q := Int.floor_le q
  have h1 : q < (⌊q⌋ : ℚ) + 1 := Int.lt_floor_add_one q
  simp only [round_away]
  rw [if_neg (not_lt.mpr hq)]
  by_cases hf : q - ⌊q⌋ < 1 / 2
  · have hnr : np_round q = ⌊q⌋ := by unfold np_round; rw [if_pos hf]
    rw [hnr, abs_of_nonneg (by linarith)]
    split_ifs with h h'
    · exfalso; linarith
    · rfl
    · rfl
    · exfalso; linarith
  · by_cases hg : 1 / 2 < q - ⌊q⌋
    · have hnr : np_round q = ⌊q⌋ + 1 := by
        unfold np_round
        rw [if_neg hf, if_pos hg]
      have habs : |q - ((⌊q⌋ + 1 : ℤ) : ℚ)| = (⌊q⌋ : ℚ) + 1 - q := by
        rw [abs_of_nonpos (by push_cast; linarith)]
        push_cast
        ring
      rw [hnr, habs]
      split_ifs with h h'
      · exfalso; linarith
      · rfl
      · exfalso; linarith
      · push_cast
        rfl
    · have heq : q - ⌊q⌋ = 1 / 2 := by linarith
      by_cases he : Even ⌊q⌋
      · have hnr : np_round q = ⌊q⌋ := by
          unfold np_round
          rw [if_neg hf, if_neg hg, if_pos he]
        rw [hnr, abs_of_nonneg (by linarith), if_pos (by linarith),
          if_neg (by linarith)]
      · have hnr : np_round q = ⌊q⌋ + 1 := by
          unfold np_round
          rw [if_neg hf, if_neg hg, if_neg he]
        have habs : |q - ((⌊q⌋ + 1 : ℤ) : ℚ)| = (⌊q⌋ : ℚ) + 1 - q := by
          rw [abs_of_nonpos (by push_cast; linarith)]
          push_cast
          ring
        rw [hnr, habs, if_pos (by linarith), if_neg (by linarith)]

/-- Python truthiness test used by make_diff_bin's `if not x` guard: None
and zero are falsy, NaN and every non-zero number are truthy. -/
def py_falsy : Option PyNum → Bool
  | none => true
  | some .nan => false
  | some (.val q) => decide (q = 0)

/-- Embedding of other_functions.make_diff_bin: falsy input (absent or
zero) gives the empty label, NaN gives the empty label, and otherwise the
value is floored into 5-point buckets with buckets 19 and 20 merged and
the bottom two buckets given their own labels. -/
def make_diff_bin (x : Option PyNum) : String :=
  if py_falsy x then ""
  else
    match x with
    | none => ""
    | some .nan => ""
    | some (.val q) =>
      let bin_num := ⌊q / 5⌋
      if bin_num = 19 ∨ bin_num = 20 then "[95%, 100%]"
      else if bin_num = 0 then "[ 0%,  5%]"
      else if bin_num = 1 then "[ 5%, 10%]"
      else "[" ++ toString (5 * bin_num) ++ "%, " ++
        toString (5 * (bin_num + 1)) ++ "%)"

/-- The 5-point bucket label the spec assigns to bucket index b below the
merged top bucket, with the bottom two buckets carrying their own explicit
labels. -/
def diff_bin_label_spec (b : ℤ) : String :=
  if b = 0 then "[ 0%,  5%]"
  else if b = 1 then "[ 5%, 10%]"
  else "[" ++ toString (5 * b) ++ "%, " ++ toString (5 * (b + 1)) ++ "%)"

/-- Pandas comparison `x > 0` on a float column: NaN compares false. -/
def py_gt_zero : PyNum → Bool
  | .nan => false
  | .val q => decide (0 < q)

/-- Pandas comparison `x != 0` on a float column: NaN is not equal to 0,
so it compares true. -/
def py_ne_zero : PyNum → Bool
  | .nan => true
  | .val q => decide (q ≠ 0)

/-- Embedding of the retention_pop column of prepare_data.create_reviews:
ease and factor pass through to_int_or_nan and may be NaN, review_kind and
lastivl are integer columns. -/
def retention_pop (ease : PyNum) (review_kind : Int) (factor : PyNum)
    (lastivl : Int) : Bool :=
  py_gt_zero ease &&
    (decide (review_kind ≠ REVLOG_FILT) || py_ne_zero factor) &&
    (decide (review_kind = REVLOG_REV) || decide (lastivl ≤ -86400) ||
      decide (1 ≤ lastivl))

/-- Truth of "the value is a real grade greater than zero" for a possibly
NaN value, as the spec words the ease test. -/
def pyIsPos : PyNum → Prop
  | .nan => False
  | .val q => 0 < q

/-- Truth of "the value is not 0" for a possibly NaN value, as the spec
words the ease-factor-snapshot test. -/
def pyIsNonZero : PyNum → Prop
  | .nan => True
  | .val q => q ≠ 0

/-- Review subcategory constants (consts.py). -/
def REVLOG_SUBCAT1_LRN : Int := 1

/-- Review subcategory constant (consts.py): young. -/
def REVLOG_SUBCAT1_YOUNG : Int := 2

/-- Review subcategory constant (consts.py): mature. -/
def REVLOG_SUBCAT1_MATURE : Int := 3

/-- Review subcategory constant (consts.py): other. -/
def REVLOG_SUBCAT1_OTHER : Int := 9

/-- Fine review subcategory constant (consts.py): learning. -/
def REVLOG_SUBCAT2_LRN : Int := 0

/-- Fine review subcategory constant (consts.py): relearning. -/
def REVLOG_SUBCAT2_RELRN : Int := 2

/-- Fine review subcategory constant (consts.py): filtered. -/
def REVLOG_SUBCAT2_FILT : Int := 3

/-- Fine review subcategory constant (consts.py): young. -/
def REVLOG_SUBCAT2_YOUNG : Int := 4

/-- Fine review subcategory constant (consts.py): mature. -/
def REVLOG_SUBCAT2_MATURE : Int := 5

/-- Embedding of the review_kind_subcat1 column of
prepare_data.create_reviews. -/
def review_kind_subcat1 (review_kind lastivl : Int) : Int :=
  if review_kind = REVLOG_LRN ∨ review_kind = REVLOG_RELRN ∨
      review_kind = REVLOG_FILT then REVLOG_SUBCAT1_LRN
  else if review_kind = REVLOG_REV then
    if lastivl < 21 then REVLOG_SUBCAT1_YOUNG else REVLOG_SUBCAT1_MATURE
  else REVLOG_SUBCAT1_OTHER

/-- Embedding of the review_kind_subcat2 column of
prepare_data.create_reviews: only the review kind splits, every other
kind keeps its raw numeric kind value. -/
def review_kind_subcat2 (review_kind lastivl : Int) : Int :=
  if review_kind = REVLOG_REV then
    if lastivl < 21 then REVLOG_SUBCAT2_YOUNG else REVLOG_SUBCAT2_MATURE
  else review_kind

/-- Embedding of the REVLOG_SUBCAT2_LABELS dictionary (consts.py); a
missing key means a KeyError, modelled as none. -/
def REVLOG_SUBCAT2_LABELS (x : Int) : Option String :=
  if x = REVLOG_SUBCAT2_FILT then some "1. Filtered"
  else if x = REVLOG_SUBCAT2_LRN then some "2. Learning"
  else if x = REVLOG_SUBCAT2_RELRN then some "3. Relearning"
  else if x = REVLOG_SUBCAT2_YOUNG then some "4. Young"
  else if x = REVLOG_SUBCAT2_MATURE then some "5. Mature"
  else none

/-- Queue type constant (consts.py): learning queue. -/
def QUEUE_TYPE_LRN : Int := 1

/-- Queue type constant (consts.py): review queue. -/
def QUEUE_TYPE_REV : Int := 2

/-- Queue type constant (consts.py): day-learn-relearn queue. -/
def QUEUE_TYPE_DAY_LEARN_RELEARN : Int := 3

/-- Card type constant (consts.py): review. -/
def CARD_TYPE_REV : Int := 2

/-- FSRS forgetting-curve constant (fsrs.py, FACTOR = 19 / 81). -/
def FACTOR : ℚ := 19 / 81

/-- FSRS forgetting-curve constant (fsrs.py, DECAY = -0.5). -/
def DECAY : ℝ := -0.5

/-- Embedding of the is_due_in_days column of
prepare_data.add_fsrs_retrievability. -/
def is_due_in_days (c_queue c_type : Int) : Bool :=
  (decide (c_queue = QUEUE_TYPE_DAY_LEARN_RELEARN) ||
    decide (c_queue = QUEUE_TYPE_REV)) ||
  (decide (c_type = CARD_TYPE_REV) && decide (c_queue < 0))

/-- Subtraction of possibly-NaN float values: NaN propagates. -/
def PyNum.sub : PyNum → PyNum → PyNum
  | .val a, .val b => .val (a - b)
  | _, _ => .nan

/-- Embedding of other_functions.get_days_round_to_zero_w_nan: NaN passes
through, otherwise seconds convert to days rounding toward zero. -/
def get_days_round_to_zero_w_nan : PyNum → PyNum
  | .nan => .nan
  | .val q =>
    if q < 0 then .val (-(⌊-q / (SECS_IN_DAY : ℚ)⌋) : ℚ)
    else .val ((⌊q / (SECS_IN_DAY : ℚ)⌋ : ℤ) : ℚ)

/-- Embedding of the due_time column of
prepare_data.add_fsrs_retrievability. -/
def due_time (now_val days_elapsed c_queue c_type : Int)
    (which_due : ℚ) : PyNum :=
  if c_queue = QUEUE_TYPE_LRN then .val which_due
  else if is_due_in_days c_queue c_type then
    .val ((now_val : ℚ) + (which_due - (days_elapsed : ℚ)) *
      (SECS_IN_DAY : ℚ))
  else .nan

/-- Embedding of the days_since_last_review column of
prepare_data.add_fsrs_retrievability: pinned to 0 whenever the card is not
due in day granularity, reproducing the reference implementation's
carried-over defect. -/
def days_since_last_review (now_val days_elapsed c_queue c_type : Int)
    (which_due : ℚ) (c_ivl : Int) : PyNum :=
  if is_due_in_days c_queue c_type = false then .val 0
  else get_days_round_to_zero_w_nan
    (PyNum.sub (.val (now_val : ℚ))
      (PyNum.sub (due_time now_val days_elapsed c_queue c_type which_due)
        (.val ((SECS_IN_DAY : ℚ) * (c_ivl : ℚ)))))

/-- Embedding of the fsrs_base column of fsrs.add_current_retrievability. -/
def fsrs_base (days_since_last_review c_stability : ℚ) : ℚ :=
  days_since_last_review / c_stability * FACTOR + 1

/-- Embedding of the fsrs_retrievability column of
fsrs.add_current_retrievability: math.pow on the base with the real
exponent DECAY. -/
noncomputable def fsrs_retrievability
    (days_since_last_review c_stability : ℚ) : ℝ :=
  ((fsrs_base days_since_last_review c_stability : ℚ) : ℝ) ^ DECAY

/-- Embedding of other_functions.strip_last5 on strings: drop the last
five characters, or return None when the string has five or fewer. -/
def strip_last5 (x : String) : Option String :=
  if x.length > 5 then some (x.take (x.length - 5)) else none

/-- The denormalized review-history pipeline of prepare_data.create_reviews
on one card: strip the trailing five characters, then split entries on the
delimiter; a None from the strip produces no rows after pandas stacking. -/
def revlog_entries_of (x : String) : List String :=
  match strip_last5 x with
  | none => []
  | some s => s.splitOn "-----"

end AnkiStats

namespace AnkiStats

/-- C1 counterexample: the spec's example asserts that -86401 seconds maps
to -2 days, but the code (rounding toward zero) yields -1. -/
theorem get_days_round_to_zero_spec_example_fails :
    get_days_round_to_zero (-86401) = -1 ∧ (-1 : Int) ≠ -2 := by
  constructor
  · rfl
  · decide

/-- C1 (amended): get_days_round_to_zero rounds toward zero — it equals
floor(s/86400) for non-negative s and -floor(|s|/86400) for negative s —
and the examples hold with -86401 mapping to -1 (not -2), 86399 to 0, and
86400 to 1. -/
theorem get_days_round_to_zero_correct :
    (∀ s : Int, 0 ≤ s → get_days_round_to_zero s = s / 86400) ∧
    (∀ s : Int, s < 0 → get_days_round_to_zero s = -((-s) / 86400)) ∧
    get_days_round_to_zero (-86401) = -1 ∧
    get_days_round_to_zero 86399 = 0 ∧
    get_days_round_to_zero 86400 = 1 := by
  refine ⟨?_, ?_, rfl, rfl, rfl⟩
  · intro s hs
    simp only [get_days_round_to_zero, SECS_IN_DAY]
    rw [if_neg (by omega)]
    rw [Int.fdiv_eq_ediv _ (by norm_num)]
    norm_num
  · intro s hs
    simp only [get_days_round_to_zero, SECS_IN_DAY]
    rw [if_pos hs]
    rw [Int.fdiv_eq_ediv _ (by norm_num)]
    norm_num

/-- C1 witness: the amended theorem applied at the concrete inputs 100000
and -100000. -/
theorem get_days_round_to_zero_correct_witness :
    get_days_round_to_zero 100000 = 100000 / 86400 ∧
    get_days_round_to_zero (-100000) = -(100000 / 86400) := by
  constructor
  · exact get_days_round_to_zero_correct.1 100000 (by decide)
  · exact get_days_round_to_zero_correct.2.1 (-100000) (by decide)

/-- SECS_IN_DAY evaluates to 86400. -/
theorem SECS_IN_DAY_eq : SECS_IN_DAY = 86400 := by norm_num [SECS_IN_DAY]

/-- C2: with creation at 1970-01-01 23:00 UTC (epoch 82800), now at
1970-01-02 05:00 UTC (epoch 104400), both offsets 0 and rollover hour 4,
today's rollover (04:00) has passed and the civil-date difference is one
day, so the claim requires days_elapsed = 1; the code floors the elapsed
time between the two instants (6 hours) instead of differencing civil
dates, and returns days_elapsed = 0. -/
theorem sched_timing_today_v2_new_civil_date_divergence :
    (sched_timing_today_v2_new 82800 104400 0 0 4).days_elapsed = 0 ∧
    v2_new_days_elapsed_spec 82800 104400 0 0 4 = 1 ∧
    (rollover_datetime (TimestampSecs.datetime 104400 0) 4).instant ≤
      104400 := by
  refine ⟨by decide, by decide, by decide⟩

/-- C3 counterexample: under v2-legacy with rollover hour 4, offset 0 and
now exactly at the rollover instant 1970-01-01 04:00 UTC (epoch 14400),
next_day_at equals now, so it is not strictly greater than now. -/
theorem next_day_at_not_strict_v2_legacy :
    ¬ 14400 < (sched_timing_today_v2_legacy 0 4 14400 0).next_day_at := by
  decide

/-- C3 (amended): for every configuration with rollover hour in 0..23,
next_day_at is strictly after now under v1 and v2-current; under v2-legacy
it is at or after now (equality occurs when now is exactly the rollover
instant). -/
theorem next_day_at_after_now :
    (∀ crt now : Int, now < (sched_timing_today_v1 crt now).next_day_at) ∧
    (∀ crt rollover now off : Int, 0 ≤ rollover → rollover ≤ 23 →
      now ≤ (sched_timing_today_v2_legacy crt rollover now off).next_day_at) ∧
    (∀ cs ns co off rh : Int, 0 ≤ rh → rh ≤ 23 →
      ns < (sched_timing_today_v2_new cs ns co off rh).next_day_at) := by
  refine ⟨?_, ?_, ?_⟩
  · intro crt now
    simp only [sched_timing_today_v1, get_days_round_to_zero, SECS_IN_DAY_eq]
    split_ifs with h
    · rw [Int.fdiv_eq_ediv _ (by norm_num)]
      omega
    · rw [Int.fdiv_eq_ediv _ (by norm_num)]
      omega
  · intro crt rollover now off h0 h23
    simp only [sched_timing_today_v2_legacy, rollover_datetime,
      TimestampSecs.datetime, PyDateTime.civilDate, PyDateTime.localSecs,
      SECS_IN_DAY_eq]
    rw [Int.fdiv_eq_ediv _ (by norm_num)]
    split_ifs with h
    · omega
    · omega
  · intro cs ns co off rh h0 h23
    simp only [sched_timing_today_v2_new, rollover_datetime,
      TimestampSecs.datetime, PyDateTime.civilDate, PyDateTime.localSecs,
      days_elapsed_, SECS_IN_DAY_eq]
    rw [Int.fdiv_eq_ediv _ (by norm_num)]
    split_ifs with h
    · omega
    · omega

/-- C3 witness: the amended theorem applied at concrete inputs, with the
rollover-hour bounds discharged at rollover hour 4. -/
theorem next_day_at_after_now_witness :
    14400 ≤ (sched_timing_today_v2_legacy 0 4 14400 0).next_day_at ∧
    1000 < (sched_timing_today_v2_new 0 1000 0 0 4).next_day_at := by
  constructor
  · exact next_day_at_after_now.2.1 0 4 14400 0 (by decide) (by decide)
  · exact next_day_at_after_now.2.2 0 1000 0 0 4 (by decide) (by decide)

/-- C5 counterexample: at 2.499995 the nearest integer is 2 (so nearest
rounding with ties away from zero gives 2), but round_away returns 3,
because the code's tolerance 0.49999 misclassifies fractional parts in
(0.49999, 0.5). -/
theorem round_away_not_nearest :
    round_away (.val (499999 / 200000)) = .ok (.val 3) ∧
    round_half_away_spec (499999 / 200000) = 2 ∧ (3 : ℤ) ≠ 2 := by
  have hfl : ⌊(499999 / 200000 : ℚ)⌋ = 2 := by norm_num
  refine ⟨?_, ?_, by norm_num⟩
  · rw [round_away_val_eq _ (by norm_num), hfl]
    norm_num
  · unfold round_half_away_spec
    rw [hfl]
    norm_num

/-- C5 (amended): round_away returns the nearest integer with ties rounded
away from zero for every non-negative input whose fractional part does not
lie strictly between 0.49999 and 0.5; inputs with fractional part in that
window round up to floor+1 instead of to the nearest integer; every
negative input raises the documented error; and the spec's examples
2.5 → 3, 2.49999 → 2, 2.5001 → 3 hold. -/
theorem round_away_correct :
    (∀ q : ℚ, 0 ≤ q → ¬(49999 / 100000 < q - ⌊q⌋ ∧ q - ⌊q⌋ < 1 / 2) →
      round_away (.val q) = .ok (.val ((round_half_away_spec q : ℤ) : ℚ))) ∧
    (∀ q : ℚ, 0 ≤ q → 49999 / 100000 < q - ⌊q⌋ → q - ⌊q⌋ < 1 / 2 →
      round_away (.val q) = .ok (.val ((⌊q⌋ : ℚ) + 1))) ∧
    (∀ q : ℚ, q < 0 →
      round_away (.val q) = .error "non-negative number expected") ∧
    round_away (.val (5 / 2)) = .ok (.val 3) ∧
    round_away (.val (249999 / 100000)) = .ok (.val 2) ∧
    round_away (.val (25001 / 10000)) = .ok (.val 3) := by
  have main : ∀ q : ℚ, 0 ≤ q → ¬(49999 / 100000 < q - ⌊q⌋ ∧ q - ⌊q⌋ < 1 / 2) →
      round_away (.val q) = .ok (.val ((round_half_away_spec q : ℤ) : ℚ)) := by
    intro q hq hw
    rw [round_away_val_eq q hq]
    unfold round_half_away_spec
    split_ifs with h h'
    · exfalso; linarith
    · rfl
    · push_cast; rfl
    · exact absurd ⟨by linarith, by linarith⟩ hw
  refine ⟨main, ?_, ?_, ?_, ?_, ?_⟩
  · intro q hq hlo hhi
    rw [round_away_val_eq q hq, if_neg (by linarith)]
  · intro q hq
    simp only [round_away]
    rw [if_pos hq]
  · have hfl : ⌊(5 / 2 : ℚ)⌋ = 2 := by norm_num
    rw [round_away_val_eq _ (by norm_num), hfl]
    norm_num
  · have hfl : ⌊(249999 / 100000 : ℚ)⌋ = 2 := by norm_num
    rw [round_away_val_eq _ (by norm_num), hfl]
    norm_num
  · have hfl : ⌊(25001 / 10000 : ℚ)⌋ = 2 := by norm_num
    rw [round_away_val_eq _ (by norm_num), hfl]
    norm_num

/-- C5 witness: the amended theorem applied at 3.5 (an exact tie), at
0.499996 (inside the misrounding window), and at -1 (the error case). -/
theorem round_away_correct_witness :
    round_away (.val (7 / 2)) =
      .ok (.val ((round_half_away_spec (7 / 2) : ℤ) : ℚ)) ∧
    round_away (.val (499996 / 1000000)) =
      .ok (.val ((⌊(499996 / 1000000 : ℚ)⌋ : ℚ) + 1)) ∧
    round_away (.val (-1)) = .error "non-negative number expected" := by
  refine ⟨?_, ?_, ?_⟩
  · exact round_away_correct.1 (7 / 2) (by norm_num) (by norm_num)
  · exact round_away_correct.2.1 (499996 / 1000000) (by norm_num)
      (by norm_num) (by norm_num)
  · exact round_away_correct.2.2.1 (-1) (by norm_num)

/-- C6 counterexample: the claim puts 0 in the bottom bucket, but the
code's `if not x` guard treats the number 0 as falsy and returns the empty
label instead of the bucket label. -/
theorem make_diff_bin_zero_empty :
    make_diff_bin (some (.val 0)) = "" ∧
    diff_bin_label_spec 0 = "[ 0%,  5%]" ∧
    ("" : String) ≠ "[ 0%,  5%]" := by
  refine ⟨rfl, rfl, by decide⟩

/-- C6 (amended): make_diff_bin maps every value in (0,95) to the unique
label of its 5-point bucket (labels of distinct buckets differ, and the
bottom two buckets carry their own explicit labels), every value in
[95,100] to the single merged label, and absent, NaN, and also the value 0
(which the falsy guard captures) to the empty label, without raising. -/
theorem make_diff_bin_total :
    (∀ q : ℚ, 0 < q → q < 95 →
      make_diff_bin (some (.val q)) = diff_bin_label_spec ⌊q / 5⌋) ∧
    (∀ b : ℕ, b < 19 → ∀ b' : ℕ, b' < 19 → b ≠ b' →
      diff_bin_label_spec b ≠ diff_bin_label_spec b') ∧
    (∀ q : ℚ, 95 ≤ q → q ≤ 100 →
      make_diff_bin (some (.val q)) = "[95%, 100%]") ∧
    make_diff_bin none = "" ∧
    make_diff_bin (some .nan) = "" ∧
    make_diff_bin (some (.val 0)) = "" := by
  refine ⟨?_, ?_, ?_, rfl, rfl, rfl⟩
  · intro q h0 h95
    have hb0 : 0 ≤ ⌊q / 5⌋ := Int.floor_nonneg.mpr (by positivity)
    have hb18 : ⌊q / 5⌋ < 19 := Int.floor_lt.mpr (by push_cast; linarith)
    simp only [make_diff_bin, py_falsy, decide_eq_true_eq]
    rw [if_neg (by simpa using h0.ne')]
    rw [if_neg (by omega)]
    simp only [diff_bin_label_spec]
  · decide
  · intro q h95 h100
    have hb19 : 19 ≤ ⌊q / 5⌋ := Int.le_floor.mpr (by push_cast; linarith)
    have hb20 : ⌊q / 5⌋ ≤ 20 := by
      have : (⌊q / 5⌋ : ℚ) ≤ q / 5 := Int.floor_le _
      have h4 : q / 5 ≤ 20 := by linarith
      exact_mod_cast this.trans h4
    simp only [make_diff_bin, py_falsy, decide_eq_true_eq]
    rw [if_neg (by intro h; rw [h] at h95; norm_num at h95)]
    rw [if_pos (by omega)]

/-- C6 witness: the amended theorem applied at 7 (bucket 1) and at 97
(the merged top bucket). -/
theorem make_diff_bin_total_witness :
    make_diff_bin (some (.val 7)) = diff_bin_label_spec ⌊(7 : ℚ) / 5⌋ ∧
    make_diff_bin (some (.val 97)) = "[95%, 100%]" := by
  constructor
  · exact make_diff_bin_total.1 7 (by norm_num) (by norm_num)
  · exact make_diff_bin_total.2.2.1 97 (by norm_num) (by norm_num)

/-- C7: the retention-population flag holds exactly when ease > 0, and the
kind is not filtered-cram or the ease-factor snapshot is not 0, and the
kind is review or last_interval is at most -86400 or at least 1. -/
theorem retention_pop_iff :
    ∀ (ease : PyNum) (review_kind : Int) (factor : PyNum) (lastivl : Int),
      retention_pop ease review_kind factor lastivl = true ↔
        pyIsPos ease ∧
          (review_kind ≠ REVLOG_FILT ∨ pyIsNonZero factor) ∧
          (review_kind = REVLOG_REV ∨ lastivl ≤ -86400 ∨ 1 ≤ lastivl) := by
  intro ease review_kind factor lastivl
  cases ease <;> cases factor <;>
    simp [retention_pop, py_gt_zero, py_ne_zero, pyIsPos, pyIsNonZero,
      and_assoc] <;>
    tauto

/-- C8 counterexample: a manual review event (kind 4, not the review kind)
receives subcategory_2 value 4, which is the Young bucket, and its label
is the Young label. -/
theorem review_kind_subcat2_manual_young :
    review_kind_subcat2 REVLOG_MANUAL 30 = REVLOG_SUBCAT2_YOUNG ∧
    REVLOG_SUBCAT2_LABELS (review_kind_subcat2 REVLOG_MANUAL 30) =
      some "4. Young" ∧
    REVLOG_MANUAL ≠ REVLOG_REV := by
  refine ⟨by decide, by decide, by decide⟩

/-- C8 (amended): subcategory_1 collapses learning, relearning and
filtered-cram to Learning, splits the review kind into Young
(last_interval < 21) and Mature, and sends every other kind (manual,
rescheduled) to Other; subcategory_2 splits only the review kind into
Young and Mature and passes every other kind through as its raw numeric
value, so learning, relearning and filtered stay separate, but the manual
kind (4) coincides with the Young bucket value and the rescheduled kind
(5) with the Mature bucket value. -/
theorem review_subcats_correct :
    (∀ review_kind lastivl : Int,
      ((review_kind = REVLOG_LRN ∨ review_kind = REVLOG_RELRN ∨
          review_kind = REVLOG_FILT) →
        review_kind_subcat1 review_kind lastivl = REVLOG_SUBCAT1_LRN) ∧
      (review_kind = REVLOG_REV →
        review_kind_subcat1 review_kind lastivl =
          if lastivl < 21 then REVLOG_SUBCAT1_YOUNG
          else REVLOG_SUBCAT1_MATURE) ∧
      ((review_kind = REVLOG_MANUAL ∨ review_kind = REVLOG_RESCHED) →
        review_kind_subcat1 review_kind lastivl = REVLOG_SUBCAT1_OTHER)) ∧
    (∀ review_kind lastivl : Int, review_kind ≠ REVLOG_REV →
      review_kind_subcat2 review_kind lastivl = review_kind) ∧
    (∀ lastivl : Int,
      review_kind_subcat2 REVLOG_REV lastivl =
        if lastivl < 21 then REVLOG_SUBCAT2_YOUNG
        else REVLOG_SUBCAT2_MATURE) ∧
    REVLOG_MANUAL = REVLOG_SUBCAT2_YOUNG ∧
    REVLOG_RESCHED = REVLOG_SUBCAT2_MATURE := by
  refine ⟨?_, ?_, ?_, by decide, by decide⟩
  · intro review_kind lastivl
    refine ⟨?_, ?_, ?_⟩
    · intro h
      simp only [review_kind_subcat1]
      rw [if_pos h]
    · intro h
      subst h
      simp only [review_kind_subcat1]
      rw [if_neg (by decide)]
      simp
    · intro h
      rcases h with h | h <;> subst h <;>
        simp only [review_kind_subcat1] <;>
        rw [if_neg (by decide), if_neg (by decide)]
  · intro review_kind lastivl h
    simp only [review_kind_subcat2]
    rw [if_neg h]
  · intro lastivl
    simp only [review_kind_subcat2]
    simp

/-- C8 witness: the amended theorem applied to a relearning event, to a
review event, and to a manual event. -/
theorem review_subcats_correct_witness :
    review_kind_subcat1 REVLOG_RELRN 5 = REVLOG_SUBCAT1_LRN ∧
    review_kind_subcat2 REVLOG_MANUAL 7 = REVLOG_MANUAL := by
  constructor
  · exact (review_subcats_correct.1 REVLOG_RELRN 5).1 (Or.inr (Or.inl rfl))
  · exact review_subcats_correct.2.1 REVLOG_MANUAL 7 (by decide)

/-- C4 counterexample: with scheduling version 2 — inside {1,2} — a stored
rollover hour of 30 makes timing_for_timestamp raise the ValueError of
datetime.replace instead of returning a timing result, and a stored local
offset of 1440 minutes (24 hours) with a valid hour makes it raise the
ValueError of datetime.timezone. -/
theorem timing_for_timestamp_raises_in_version_2 :
    timing_for_timestamp 0 ⟨some 30, some 0, 0, 0, some 2, 0⟩ =
      .error "hour must be in 0..23" ∧
    timing_for_timestamp 0 ⟨some 4, some 0, 1440, 0, some 2, 0⟩ =
      .error "utcoffset must be strictly between -24 and 24 hours" := by
  constructor
  · rfl
  · rfl

/-- C4 (amended): timing_for_timestamp raises exactly when the scheduling
version is outside {1,2} (including absent), or the version is 2 and the
effective rollover hour (the stored hour, or the default 4 when absent)
is outside 0..23, or the version is 2 and an offset the selected v2 path
builds a timezone from (the local offset, and the creation offset when
present) is not strictly within 24 hours; under version 1, and under
version 2 with the effective hour and those offsets in range, it returns
a SchedTimingToday without raising. -/
theorem timing_for_timestamp_ok_iff :
    ∀ (now : Int) (tc : TimingConfig),
      ((∃ r, timing_for_timestamp now tc = .ok r) ↔
        (tc.sched_ver = some 1 ∨
          (tc.sched_ver = some 2 ∧
            hour_in_range (effective_rollover_hour tc.rollover_hour) = true ∧
            offset_in_range tc.local_offset = true ∧
            Option.all offset_in_range tc.creation_offset = true))) ∧
      ((∃ e, timing_for_timestamp now tc = .error e) ↔
        ¬ (tc.sched_ver = some 1 ∨
          (tc.sched_ver = some 2 ∧
            hour_in_range (effective_rollover_hour tc.rollover_hour) = true ∧
            offset_in_range tc.local_offset = true ∧
            Option.all offset_in_range tc.creation_offset = true))) := by
  intro now tc
  obtain ⟨rh, co, lo, los, sv, cs⟩ := tc
  simp only [timing_for_timestamp]
  split_ifs with h1 h2
  · subst h1
    simp [sched_timing_today]
  · subst h2
    cases co with
    | none =>
      simp only [sched_timing_today, Option.all]
      split_ifs with ho hh
      · simp [ho, hh]
      · simp [ho, hh]
      · simp [ho]
    | some c =>
      simp only [sched_timing_today, Option.all]
      split_ifs with hc ho hh
      · simp [hc, ho, hh]
      · simp [hc, ho, hh]
      · simp [hc, ho]
      · simp [hc]
  · simp [h1, h2]

end AnkiStats

namespace AnkiStats

/-- C9: retrievability is computed as (1 + F * elapsed_days / stability)^D
with the fixed constants F = 19/81 and D = -0.5, and elapsed_days
(days_since_last_review) is pinned to 0 for every card that is not due in
day granularity, reproducing the reference implementation's defect. -/
theorem fsrs_retrievability_formula :
    FACTOR = 19 / 81 ∧ DECAY = -(1 / 2) ∧
    (∀ (now_val days_elapsed c_queue c_type : Int) (which_due : ℚ)
        (c_ivl : Int), is_due_in_days c_queue c_type = false →
      days_since_last_review now_val days_elapsed c_queue c_type which_due
        c_ivl = .val 0) ∧
    (∀ d s : ℚ, fsrs_retrievability d s =
      ((1 + FACTOR * d / s : ℚ) : ℝ) ^ DECAY) := by
  refine ⟨rfl, by norm_num [DECAY], ?_, ?_⟩
  · intro now_val de q t wd ivl h
    unfold days_since_last_review
    rw [if_pos h]
  · intro d s
    unfold fsrs_retrievability fsrs_base
    congr 1
    push_cast
    ring

/-- C9 witness: the pinning conjunct applied to a new card (queue 0,
type 0), which is not due in day granularity. -/
theorem fsrs_retrievability_formula_witness :
    days_since_last_review 0 0 0 0 0 0 = .val 0 :=
  fsrs_retrievability_formula.2.2.1 0 0 0 0 0 0 (by decide)

/-- C10: an input string of five or fewer characters yields None and hence
no review entries at all; a longer string loses exactly its last five
characters. -/
theorem strip_last5_correct :
    (∀ x : String, x.length ≤ 5 →
      strip_last5 x = none ∧ revlog_entries_of x = []) ∧
    (∀ x : String, 5 < x.length →
      strip_last5 x = some (x.take (x.length - 5)) ∧
      ∃ t : List Char, t.length = 5 ∧
        x.data = (x.take (x.length - 5)).data ++ t) := by
  constructor
  · intro x h
    have hs : strip_last5 x = none := by
      unfold strip_last5
      rw [if_neg (by omega)]
    refine ⟨hs, ?_⟩
    unfold revlog_entries_of
    rw [hs]
  · intro x h
    have hs : strip_last5 x = some (x.take (x.length - 5)) := by
      unfold strip_last5
      rw [if_pos (by omega)]
    refine ⟨hs, x.data.drop (x.length - 5), ?_, ?_⟩
    · have hlen : x.length = x.data.length := rfl
      rw [List.length_drop]
      omega
    · rw [String.data_take]
      exact (List.take_append_drop _ _).symm

/-- C10 witness: the theorem applied to a three-character string (no
entries) and an eight-character string (last five characters removed). -/
theorem strip_last5_correct_witness :
    (strip_last5 "abc" = none ∧ revlog_entries_of "abc" = []) ∧
    strip_last5 "abcdefgh" =
      some (String.take "abcdefgh" ("abcdefgh".length - 5)) := by
  constructor
  · exact strip_last5_correct.1 "abc" (by decide)
  · exact (strip_last5_correct.2 "abcdefgh" (by decide)).1

end AnkiStats
